import Mathlib

/-!
# Verification of the gps_tracker sonar/GPS pipeline

Shallow embedding of the core of the `ascharlton/gps_tracker` repository:

* `GpsServer` embeds `src/gps_server.js` (serial reassembly, primary-reflection
  extraction, exponential depth smoothing, throttled DB persistence, and the
  GPS-gated fan-out of `startGpsPipe`).
* `WebApps` embeds `src/web-apps/sonar-server-all-signals.js` (checksum-validating
  packet extraction, blind-zone search, the map-based `SignalTracker`, and the
  multi-signal extractor `extractSignalIndices`).

JavaScript numbers are modelled as `ℚ` (for measurements), `ℤ` (for timestamps
and signed indices) and `ℕ` (for samples and counters).  JS arrays indexed by a
loop counter are modelled either as `List ℕ` or as a function `ℕ → ℕ` together
with an explicit length, whichever matches the access pattern of the source.
Loops are modelled by structural recursion on an explicit iteration count that
mirrors the loop bound, so that every definition evaluates by `decide`.
-/

/-- The `readUInt16BE(i * 2)` decoding loop shared by both servers: consecutive
byte pairs of the sample region become big-endian unsigned 16-bit values. -/
def readSamplesBE : List ℕ → List ℕ
  | a :: b :: rest => (a * 256 + b) :: readSamplesBE rest
  | _ => []

namespace GpsServer

/-! ## Constants of `src/gps_server.js` -/

def SAMPLE_RESOLUTION : ℚ := 0.2178
def ORIGINAL_SAMPLE_COUNT : ℕ := 1800
def NUM_SAMPLES : ℕ := ORIGINAL_SAMPLE_COUNT
def NOISE_FLOOR_RANGE : ℕ := 100
def EMA_ALPHA : ℚ := 0.1
def HEADER_BYTE : ℕ := 0xAA
def NUM_METADATA_BYTES : ℕ := 6
def SAMPLES_BYTE_SIZE : ℕ := NUM_SAMPLES * 2
def PACKET_SIZE : ℕ := 1 + NUM_METADATA_BYTES + SAMPLES_BYTE_SIZE + 1
def DB_WRITE_INTERVAL_MS : ℤ := 3000

/-! ## Serial reassembly (`serialBufferHandler`)

The handler repeatedly takes `PACKET_SIZE`-byte windows starting at the first
`0xAA` byte and decodes 1800 samples from each; it performs no checksum
comparison.  `serialFramesGo` mirrors the `while` loop; the iteration count is
bounded by the buffer length since every iteration drops at least one byte. -/

def serialFramesGo : ℕ → List ℕ → List (List ℕ) × List ℕ
  | 0, comBuffer => ([], comBuffer)
  | fuel + 1, comBuffer =>
      if comBuffer.length < PACKET_SIZE then ([], comBuffer)
      else
        match comBuffer.findIdx? (fun b => b == HEADER_BYTE) with
        | none => ([], [])
        | some 0 =>
            let packet := comBuffer.take PACKET_SIZE
            let payload := (packet.drop 1).take (PACKET_SIZE - 2)
            let samplesBuffer := payload.drop NUM_METADATA_BYTES
            let rawSamples := readSamplesBE samplesBuffer
            let r := serialFramesGo fuel (comBuffer.drop PACKET_SIZE)
            (rawSamples :: r.1, r.2)
        | some (headerIndex + 1) =>
            serialFramesGo fuel (comBuffer.drop (headerIndex + 1))

/-- All frames `serialBufferHandler` hands to `processDataPacket` from a
buffer, with the residual buffer. -/
def serialFrames (comBuffer : List ℕ) : List (List ℕ) × List ℕ :=
  serialFramesGo comBuffer.length comBuffer

/-! ## Noise floor, blind zone and primary reflection -/

/-- `calculateNoiseFloor`: mean of the last `NOISE_FLOOR_RANGE` samples,
`0` when the frame is shorter than that. -/
def calculateNoiseFloor (samples : List ℕ) : ℚ :=
  if samples.length < NOISE_FLOOR_RANGE then 0
  else (((samples.drop (samples.length - NOISE_FLOOR_RANGE)).sum : ℚ)) / NOISE_FLOOR_RANGE

/-- Scan of `findBlindZoneEnd`: from index `i` with
`min samples.length 500 - i` iterations left, return the first index whose
sample is at or below the threshold, `150` when the loop ends. -/
def findBlindZoneEndGo (samples : List ℕ) (threshold : ℚ) : ℕ → ℕ → ℕ
  | 0, _ => 150
  | fuel + 1, i =>
      if ((samples.getD i 0 : ℕ) : ℚ) ≤ threshold then i
      else findBlindZoneEndGo samples threshold fuel (i + 1)

/-- `findBlindZoneEnd` of `gps_server.js`: search limit `500`, threshold
`noiseFloor * 1.2`, default `150`. -/
def findBlindZoneEnd (samples : List ℕ) (noiseFloor : ℚ) : ℕ :=
  findBlindZoneEndGo samples (noiseFloor * 1.2) (min samples.length 500) 0

/-- The `samples[i] > maxValue` scan of `findPrimaryReflection`, walking the
samples from index `i` and keeping the first strict maximum. -/
def scanMax : List ℕ → ℕ → ℕ → ℤ → ℕ × ℤ
  | [], _, maxValue, maxIndex => (maxValue, maxIndex)
  | v :: rest, i, maxValue, maxIndex =>
      if maxValue < v then scanMax rest (i + 1) v i
      else scanMax rest (i + 1) maxValue maxIndex

structure Reflection where
  value : ℕ
  index : ℤ
  distance : ℚ
  blindZoneEndIndex : ℕ
deriving DecidableEq

/-- `findPrimaryReflection`: strongest sample at or after the blind-zone end,
with its raw distance in cm. -/
def findPrimaryReflection (samples : List ℕ) : Reflection :=
  if samples.length = 0 then ⟨0, -1, 0, 0⟩
  else
    let noiseFloor := calculateNoiseFloor samples
    let startIndex := findBlindZoneEnd samples noiseFloor
    let m := scanMax (samples.drop startIndex) startIndex 0 (-1)
    ⟨m.1, m.2, (m.2 : ℚ) * SAMPLE_RESOLUTION, startIndex⟩

/-- `applyExponentialSmoothing` as a pure state transformer on the module
variable `lastSmoothedDistance` (`none` models the initial `null`).  Returns
the value returned by the JS function together with the new state. -/
def applyExponentialSmoothing (lastSmoothedDistance : Option ℚ) (currentDistance : ℚ) :
    ℚ × Option ℚ :=
  match lastSmoothedDistance with
  | none => (currentDistance, some currentDistance)
  | some s =>
      let smoothedDistance := EMA_ALPHA * currentDistance + (1 - EMA_ALPHA) * s
      (smoothedDistance, some smoothedDistance)

/-- Folding `applyExponentialSmoothing` over a sequence of observations,
starting from a given `lastSmoothedDistance` state. -/
def smoothRun (s : Option ℚ) : List ℚ → Option ℚ
  | [] => s
  | x :: xs => smoothRun (applyExponentialSmoothing s x).2 xs

/-! ## Global server state and the per-frame transform (`processDataPacket`) -/

/-- Snapshot returned by `getGpsCoordinates`. -/
structure GpsCoord where
  lat : Option ℚ
  lon : Option ℚ
deriving DecidableEq

/-- The module variable `currentGpsData`. -/
structure CurrentGps where
  lat : Option ℚ
  lon : Option ℚ
  initialized : Bool
deriving DecidableEq

def getGpsCoordinates (g : CurrentGps) : GpsCoord :=
  if g.initialized then ⟨g.lat, g.lon⟩ else ⟨none, none⟩

/-- One element of the module-level `collectedSonarData` array. -/
structure SonarRecord where
  timestamp : ℤ
  reflection : Reflection
  smoothedDistance : ℚ
  gps : GpsCoord
deriving DecidableEq

/-- One row of the `sonar_readings` table. -/
structure SonarRow where
  timestamp : ℤ
  latitude : ℚ
  longitude : ℚ
  max_value : ℕ
  max_sample_index : ℤ
  max_distance_cm : ℚ
deriving DecidableEq

/-- A 3-byte record of the high-rate binary stream. -/
structure BinRecord where
  distMM : ℤ
  peakValue : ℕ
deriving DecidableEq

/-- The module-level mutable state shared by the sonar and GPS sides (the
console-log deduplication variables `lastFixMode`, `lastAccuracyWarn` and
`lastSatInfo` only affect logging and are not modelled). -/
structure ServerState where
  currentGpsData : CurrentGps
  lastSmoothedDistance : Option ℚ
  collectedSonarData : List SonarRecord
  lastDbWriteTimestamp : ℤ
deriving DecidableEq

/-- Result of one `processDataPacket` call: the new state, the optional
binary-channel record, and the optional `sonar_readings` insert. -/
structure StepResult where
  state : ServerState
  binaryEmit : Option BinRecord
  dbInsert : Option SonarRow
deriving DecidableEq

/-- The record `processDataPacket` pushes onto `collectedSonarData`. -/
def recordOf (st : ServerState) (rawSamples : List ℕ) (timestamp : ℤ) : SonarRecord :=
  ⟨timestamp, findPrimaryReflection rawSamples,
    (applyExponentialSmoothing st.lastSmoothedDistance
      (findPrimaryReflection rawSamples).distance).1,
    getGpsCoordinates st.currentGpsData⟩

/-- `processDataPacket`, run at wall-clock time `timestamp` (ms). -/
def processDataPacket (st : ServerState) (rawSamples : List ℕ) (timestamp : ℤ) :
    StepResult :=
  let reflection := findPrimaryReflection rawSamples
  let p := applyExponentialSmoothing st.lastSmoothedDistance reflection.distance
  let smoothedDistance := p.1
  let st1 : ServerState := { st with lastSmoothedDistance := p.2 }
  if reflection.value < 50 then { state := st1, binaryEmit := none, dbInsert := none }
  else
    let distMM := round (smoothedDistance * 10)
    let peakValue := if 255 < reflection.value then 255 else reflection.value
    let emit : Option BinRecord := some ⟨distMM, peakValue⟩
    let record := recordOf st rawSamples timestamp
    let st2 : ServerState :=
      { st1 with collectedSonarData := st1.collectedSonarData ++ [record] }
    if timestamp - st.lastDbWriteTimestamp < DB_WRITE_INTERVAL_MS then
      { state := st2, binaryEmit := emit, dbInsert := none }
    else if st2.collectedSonarData.length = 0 then
      { state := st2, binaryEmit := emit, dbInsert := none }
    else
      let latestData := st2.collectedSonarData.getLast?.getD record
      match latestData.gps.lat, latestData.gps.lon with
      | some lat, some lon =>
          if lat = 0 ∨ lon = 0 then { state := st2, binaryEmit := emit, dbInsert := none }
          else
            { state := { st2 with lastDbWriteTimestamp := timestamp },
              binaryEmit := emit,
              dbInsert := some ⟨latestData.timestamp, lat, lon,
                latestData.reflection.value, latestData.reflection.index,
                latestData.smoothedDistance⟩ }
      | none, _ => { state := st2, binaryEmit := emit, dbInsert := none }
      | some _, none => { state := st2, binaryEmit := emit, dbInsert := none }

/-- A sequence of `processDataPacket` calls, collecting the inserted rows. -/
def runSonar (st : ServerState) : List (List ℕ × ℤ) → ServerState × List SonarRow
  | [] => (st, [])
  | (rawSamples, t) :: rest =>
      let r := processDataPacket st rawSamples t
      let rec' := runSonar r.state rest
      (rec'.1, (match r.dbInsert with
                | some row => row :: rec'.2
                | none => rec'.2))

/-! ## The GPS pipe line handler (`startGpsPipe`)

One parsed `gpspipe -w` JSON line is handled by inserting it into `gps_raw`,
and, for `TPV` messages with `mode >= 2 && msg.lat && msg.lon` (JS truthiness:
a missing or zero coordinate fails the gate), updating the GPS snapshot,
inserting a `gps_points` row, flushing the sonar batch and emitting a `gps`
event.  `SKY` messages emit a `satellite_update` event. -/

inductive MsgClass
  | TPV
  | SKY
  | OTHER
deriving DecidableEq

/-- A parsed gpsd message; absent JSON fields are `none`.  `time` is modelled
as epoch milliseconds.  A satellite is modelled by its `used` flag. -/
structure GpsdMsg where
  cls : MsgClass
  mode : Option ℕ
  lat : Option ℚ
  lon : Option ℚ
  alt : Option ℚ
  speed : Option ℚ
  track : Option ℚ
  epx : Option ℚ
  epy : Option ℚ
  time : Option ℤ
  status : Option ℕ
  satellites : Option (List Bool)
deriving DecidableEq

/-- One row of the `gps_points` table.  `accuracySq` holds `epx² + epy²`; the
source stores its square root, which ℚ cannot represent — only the
presence/absence and the guard behaviour matter to the claims. -/
structure GpsPointsRow where
  time : ℤ
  lat : ℚ
  lon : ℚ
  speed : ℚ
  track : ℚ
  accuracySq : Option ℚ
  fix_mode : Option ℕ
deriving DecidableEq

/-- One element of a `sonar_batch` emit: `{time, depth_cm, lat, lon}`. -/
structure BatchEntry where
  time : ℤ
  depth_cm : ℚ
  lat : Option ℚ
  lon : Option ℚ
deriving DecidableEq

/-- The payload of a `gps` socket event. -/
structure GpsEvent where
  lat : ℚ
  lon : ℚ
  alt : Option ℚ
  speed : ℚ
  track : ℚ
  time : ℤ
  fix_mode : ℕ
  accuracySq : Option ℚ
  status : Option ℕ
  depth_m : ℚ
deriving DecidableEq

/-- Socket.IO events emitted by the line handler. -/
inductive Event
  | rawCountUpdate
  | sonarBatch (batch : List BatchEntry)
  | gps (e : GpsEvent)
  | satelliteUpdate (used total : ℕ)
deriving DecidableEq

def Event.isSonarBatch : Event → Bool
  | .sonarBatch _ => true
  | _ => false

/-- Database writes performed by the line handler. -/
inductive DbAction
  | insertGpsRaw (msg : GpsdMsg)
  | insertGpsPoints (row : GpsPointsRow)
deriving DecidableEq

/-- JS truthiness of an optional number (`0`, like `null`, is falsy). -/
def truthy : Option ℚ → Bool
  | none => false
  | some q => decide (q ≠ 0)

/-- `x || null`: a zero value collapses to `null`. -/
def orNull (x : Option ℚ) : Option ℚ :=
  match x with
  | some q => if q = 0 then none else some q
  | none => none

/-- `Number(v.toFixed(8))`: round to 8 decimal places. -/
def toFixed8 (q : ℚ) : ℚ :=
  (round (q * 100000000) : ℤ) / 100000000

/-- The projection used to build a `sonar_batch` emit from the buffer. -/
def projRecord (d : SonarRecord) : BatchEntry :=
  ⟨d.timestamp, d.smoothedDistance, d.gps.lat, d.gps.lon⟩

/-- The per-line handler of `startGpsPipe`, at wall-clock time `wallClock`
(used where the source falls back to `new Date()`). -/
def handleGpsLine (st : ServerState) (msg : GpsdMsg) (wallClock : ℤ) :
    ServerState × List Event × List DbAction :=
  let actions0 := [DbAction.insertGpsRaw msg]
  let events0 := [Event.rawCountUpdate]
  let tpv :=
    if msg.cls = MsgClass.TPV then
      let mode := msg.mode.getD 0
      match msg.lat, msg.lon with
      | some lat, some lon =>
          if 2 ≤ mode ∧ lat ≠ 0 ∧ lon ≠ 0 then
            let stG : ServerState :=
              { st with currentGpsData := ⟨some lat, some lon, true⟩ }
            let horizAccSq :=
              if truthy msg.epx ∧ truthy msg.epy then
                some ((msg.epx.getD 0) ^ 2 + (msg.epy.getD 0) ^ 2)
              else none
            let currentDepthCm := stG.lastSmoothedDistance.getD 0
            let currentDepthMeters := currentDepthCm / 100
            let row : GpsPointsRow :=
              ⟨msg.time.getD wallClock, lat, lon, msg.speed.getD 0,
                msg.track.getD 0, horizAccSq, msg.mode⟩
            let flush :=
              if stG.collectedSonarData.length ≠ 0 then
                ({ stG with collectedSonarData := [] },
                  [Event.sonarBatch (stG.collectedSonarData.map projRecord)])
              else (stG, ([] : List Event))
            let gpsEvt : GpsEvent :=
              ⟨toFixed8 lat, toFixed8 lon, orNull msg.alt, msg.speed.getD 0,
                msg.track.getD 0, msg.time.getD wallClock, msg.mode.getD 0,
                horizAccSq, msg.status, currentDepthMeters⟩
            (flush.1, flush.2 ++ [Event.gps gpsEvt], [DbAction.insertGpsPoints row])
          else (st, ([] : List Event), ([] : List DbAction))
      | _, _ => (st, ([] : List Event), ([] : List DbAction))
    else (st, ([] : List Event), ([] : List DbAction))
  let sky : List Event :=
    if msg.cls = MsgClass.SKY then
      match msg.satellites with
      | some sats => [Event.satelliteUpdate (sats.count true) sats.length]
      | none => []
    else []
  (tpv.1, events0 ++ tpv.2.1 ++ sky, actions0 ++ tpv.2.2)

end GpsServer

namespace WebApps

/-! ## Constants of `src/web-apps/sonar-server-all-signals.js`
(`SONAR_FREQUENCY = 40`, so the 40 kHz blind-zone characteristics apply). -/

def NUM_SAMPLES : ℕ := 1800
def PAYLOAD_LEN : ℕ := 6 + 2 * NUM_SAMPLES
def PACKET_LEN : ℕ := 1 + PAYLOAD_LEN + 1
def PACKET_HEADER : ℕ := 0xAA
def NUM_SIGNALS : ℕ := 20
def SIGNAL_THRESHOLD : ℕ := 60
def CONSISTENCY_SAMPLES : ℕ := 10
def POSITION_TOLERANCE : ℕ := 1
def NOISE_FLOOR_RANGE : ℕ := 200
def MIN_SIGNAL_SEPARATION : ℕ := 20
def MAX_BZ_SEARCH_SAMPLES : ℕ := 300
def IGNORE_FIRST_SAMPLES : ℕ := 8

/-! ## Packet extraction (`extractAndProcessPacket`)

The header scan `for (let i = 0; i <= buffer.length - PACKET_LEN; i++)` runs
while `i + PACKET_LEN ≤ buffer.length` (not at all on a short buffer); the
buffer length bounds the number of iterations, making the recursion
structural. -/

def findHeaderGo (buffer : List ℕ) : ℕ → ℕ → Option ℕ
  | 0, _ => none
  | fuel + 1, i =>
      if i + PACKET_LEN ≤ buffer.length then
        (if buffer.getD i 0 = PACKET_HEADER then some i
         else findHeaderGo buffer fuel (i + 1))
      else none

/-- The header-locating loop of `extractAndProcessPacket`. -/
def findHeader (buffer : List ℕ) : Option ℕ :=
  findHeaderGo buffer buffer.length 0

/-- XOR checksum over a byte list. -/
def xorChecksum (payload : List ℕ) : ℕ :=
  payload.foldl (fun a b => a ^^^ b) 0

/-- One `extractAndProcessPacket` call.  On checksum mismatch the source drops
the header byte and calls itself; every such step shortens the buffer, so
`buffer.length` bounds the recursion depth. -/
def extractGo : ℕ → List ℕ → Option (List ℕ) × List ℕ
  | 0, buffer => (none, buffer)
  | fuel + 1, buffer =>
      match findHeader buffer with
      | none => (none, buffer)
      | some headerIndex =>
          let potentialPacket := (buffer.drop headerIndex).take PACKET_LEN
          let payload := (potentialPacket.drop 1).take PAYLOAD_LEN
          let receivedChecksum := potentialPacket.getD (PACKET_LEN - 1) 0
          let calculatedChecksum := xorChecksum payload
          if calculatedChecksum ≠ receivedChecksum then
            extractGo fuel (buffer.drop (headerIndex + 1))
          else
            (some (readSamplesBE (payload.drop 6)), buffer.drop (headerIndex + PACKET_LEN))

def extractAndProcessPacket (buffer : List ℕ) : Option (List ℕ) × List ℕ :=
  extractGo buffer.length buffer

/-- The `while ((packet = extractAndProcessPacket()))` driver loop: all frames
produced from a buffer, with the residual buffer.  Each emitted packet removes
at least `PACKET_LEN` bytes, so `buffer.length` bounds the iteration count. -/
def drainGo : ℕ → List ℕ → List (List ℕ) × List ℕ
  | 0, buffer => ([], buffer)
  | fuel + 1, buffer =>
      match extractAndProcessPacket buffer with
      | (none, b) => ([], b)
      | (some values, b) =>
          let r := drainGo fuel b
          (values :: r.1, r.2)

def drainPackets (buffer : List ℕ) : List (List ℕ) × List ℕ :=
  drainGo buffer.length buffer

/-- The sample window of the packet found at offset `k` of `buffer`, exactly
as `extractAndProcessPacket` decodes it. -/
def samplesAt (buffer : List ℕ) (k : ℕ) : List ℕ :=
  readSamplesBE (((((buffer.drop k).take PACKET_LEN).drop 1).take PAYLOAD_LEN).drop 6)

/-- The packet at offset `k` of `buffer` has a matching XOR checksum. -/
def ChecksumOkAt (buffer : List ℕ) (k : ℕ) : Prop :=
  xorChecksum ((((buffer.drop k).take PACKET_LEN).drop 1).take PAYLOAD_LEN) =
    ((buffer.drop k).take PACKET_LEN).getD (PACKET_LEN - 1) 0

instance (buffer : List ℕ) (k : ℕ) : Decidable (ChecksumOkAt buffer k) := by
  unfold ChecksumOkAt; infer_instance

/-- The frame `v` is the decoding of a complete, header-aligned,
checksum-valid packet located at offset `k` of `buffer`. -/
def ValidPacketAt (buffer : List ℕ) (k : ℕ) (v : List ℕ) : Prop :=
  k + PACKET_LEN ≤ buffer.length ∧
  buffer.getD k 0 = PACKET_HEADER ∧
  ChecksumOkAt buffer k ∧
  v = samplesAt buffer k

/-! ## Blind zone (`findBlindZoneEnd`)

The loop runs `i` from `IGNORE_FIRST_SAMPLES` to `MAX_BZ_SEARCH_SAMPLES`, so
`MAX_BZ_SEARCH_SAMPLES - i` iterations remain from index `i`.  The frame is a
function `ℕ → ℕ` with its length implicit (the loop reads up to index 299
regardless of length). -/

def CONSISTENCY_COUNT : ℕ := 1

def findBlindZoneEndGo (values : ℕ → ℕ) (threshold : ℚ) : ℕ → ℕ → ℕ → ℕ
  | 0, _, _ => MAX_BZ_SEARCH_SAMPLES
  | fuel + 1, i, consecutiveCount =>
      if ((values i : ℕ) : ℚ) < threshold then
        (if CONSISTENCY_COUNT ≤ consecutiveCount + 1 then i - CONSISTENCY_COUNT
         else findBlindZoneEndGo values threshold fuel (i + 1) (consecutiveCount + 1))
      else findBlindZoneEndGo values threshold fuel (i + 1) 0

/-- `findBlindZoneEnd` of the web server: the threshold is the running noise
average itself (`const threshold = (noiseFloor)`). -/
def findBlindZoneEnd (values : ℕ → ℕ) (noiseFloor : ℚ) : ℕ :=
  findBlindZoneEndGo values noiseFloor
    (MAX_BZ_SEARCH_SAMPLES - IGNORE_FIRST_SAMPLES) IGNORE_FIRST_SAMPLES 0

/-! ## `SignalTracker` (map-based consistency tracker)

`history` is a `Map` from peak position to `{count}`; JS `Map`s and `Set`s
iterate in insertion order, modelled by association lists in insertion
order. -/

structure TrackerCfg where
  consistencySamples : ℕ
  threshold : ℕ
  tolerance : ℕ
deriving DecidableEq

/-- The peak collection loop: indices `i < len` with `values[i] >= threshold`,
in increasing order, as a JS `Set` of numbers. -/
def currentPeaks (values : ℕ → ℕ) (len threshold : ℕ) : List ℤ :=
  (List.range len).filterMap
    (fun i => if threshold ≤ values i then some (i : ℤ) else none)

/-- The inner scan `for (let i = pos - tolerance; i <= pos + tolerance; i++)`:
first scanned position present in `peaks`. -/
def matchScan (peaks : List ℤ) (pos : ℤ) (tolerance : ℕ) : Option ℤ :=
  ((List.range (2 * tolerance + 1)).map (fun d => pos - (tolerance : ℤ) + d)).find?
    (fun i => peaks.contains i)

/-- The `for (const [pos, data] of this.history)` loop, threading the
still-unmatched peaks, the consistent-index accumulator and the next
history. -/
def historyLoop (cfg : TrackerCfg) :
    List (ℤ × ℕ) → List ℤ → List ℤ → List (ℤ × ℕ) → List ℤ × List (ℤ × ℕ) × List ℤ
  | [], peaks, consistent, nextHistory => (consistent, nextHistory, peaks)
  | (pos, count) :: rest, peaks, consistent, nextHistory =>
      match matchScan peaks pos cfg.tolerance with
      | some i =>
          let newCount := count + 1
          let consistent' :=
            if cfg.consistencySamples ≤ newCount then consistent ++ [i] else consistent
          let nextHistory' :=
            if (nextHistory.find? (fun e => e.1 == i)).isSome then nextHistory
            else nextHistory ++ [(i, newCount)]
          historyLoop cfg rest (peaks.erase i) consistent' nextHistory'
      | none => historyLoop cfg rest peaks consistent nextHistory

/-- `SignalTracker.updateAndGetConsistentIndices`: returns the consistent
indices and the new history. -/
def updateAndGetConsistentIndices (cfg : TrackerCfg) (history : List (ℤ × ℕ))
    (values : ℕ → ℕ) (len : ℕ) : List ℤ × List (ℤ × ℕ) :=
  let peaks := currentPeaks values len cfg.threshold
  let r := historyLoop cfg history peaks [] []
  let nextHistory :=
    r.2.2.foldl
      (fun acc newPos =>
        if (acc.find? (fun e => e.1 == newPos)).isSome then acc
        else acc ++ [(newPos, 1)])
      r.2.1
  (r.1, nextHistory)

/-! ## Signal extraction (`extractSignalIndices`)

The outer loop index `i` either steps by one or jumps past the current pulse,
so the frame length bounds the number of iterations; one fuel unit is spent
per iteration. -/

/-- The pulse-width loop: first `j ≥ i` with `values[j] < SIGNAL_THRESHOLD`,
or `len - 1` when the pulse extends to the end of the frame.  From index `j`
exactly `len - j` iterations remain. -/
def pulseEndGo (values : ℕ → ℕ) (len : ℕ) : ℕ → ℕ → ℕ
  | 0, _ => len - 1
  | fuel + 1, j =>
      if SIGNAL_THRESHOLD ≤ values j then pulseEndGo values len fuel (j + 1)
      else j

def pulseEnd (values : ℕ → ℕ) (len i : ℕ) : ℕ :=
  pulseEndGo values len (len - i) i

/-- The main scan of `extractSignalIndices`.  A detection records the start
index and `values[start]` as its amplitude. -/
def extractLoop (values : ℕ → ℕ) (len : ℕ) (consistentIndices : List ℤ) :
    ℕ → ℕ → ℤ → ℕ → List (ℕ × ℕ)
  | 0, _, _, _ => []
  | fuel + 1, i, lastPulseEnd, signalCount =>
      if i < len then
        if (i : ℤ) < lastPulseEnd + (MIN_SIGNAL_SEPARATION : ℤ) then
          extractLoop values len consistentIndices fuel (i + 1) lastPulseEnd signalCount
        else if consistentIndices.contains (i : ℤ) ∧ SIGNAL_THRESHOLD ≤ values i then
          let currentPulseEnd := pulseEnd values len i
          if signalCount + 1 = NUM_SIGNALS then [(i, values i)]
          else
            (i, values i) ::
              extractLoop values len consistentIndices fuel (currentPulseEnd + 1)
                (currentPulseEnd : ℤ) (signalCount + 1)
        else
          extractLoop values len consistentIndices fuel (i + 1) lastPulseEnd signalCount
      else []

/-- The `detectedSignals` array before sentinel padding: the real detections
of one frame as `(index, amplitude)` pairs. -/
def detectedSignals (values : ℕ → ℕ) (len : ℕ) (consistentIndices : List ℤ) :
    List (ℕ × ℕ) :=
  extractLoop values len consistentIndices len 0 (-1) 0

/-- `extractSignalIndices` including the `{index: -1, amplitude: -1}` padding
up to `NUM_SIGNALS` entries. -/
def extractSignalIndices (values : ℕ → ℕ) (len : ℕ) (consistentIndices : List ℤ) :
    List (ℤ × ℤ) :=
  let real := (detectedSignals values len consistentIndices).map
    (fun d => ((d.1 : ℤ), (d.2 : ℤ)))
  real ++ List.replicate (NUM_SIGNALS - real.length) ((-1 : ℤ), (-1 : ℤ))

/-- `max(sample[i..j])` over the inclusive index range `[i, j]` — the peak
amplitude the specification attributes to a pulse. -/
def pulseMax (values : ℕ → ℕ) (i j : ℕ) : ℕ :=
  ((List.range (j + 1 - i)).map (fun k => values (i + k))).foldl max 0

end WebApps

/-! ## Concrete scenario inputs -/

/-- A 1800-sample frame whose only above-threshold peak sits at index 700. -/
def singlePeakFrame : ℕ → ℕ := fun i => if i = 700 then 100 else 0

/-- Feeding `n` copies of `singlePeakFrame` to a fresh web-server
`SignalTracker` (`CONSISTENCY_SAMPLES = 10`): the per-frame consistent-index
outputs and the final history. -/
def trackerScenario : ℕ → List (List ℤ) × List (ℤ × ℕ)
  | 0 => ([], [])
  | n + 1 =>
      let r := trackerScenario n
      let u := WebApps.updateAndGetConsistentIndices
        ⟨WebApps.CONSISTENCY_SAMPLES, WebApps.SIGNAL_THRESHOLD, WebApps.POSITION_TOLERANCE⟩
        r.2 singlePeakFrame WebApps.NUM_SAMPLES
      (r.1 ++ [u.1], u.2)

/-- A 1800-sample frame whose pulse starts at index 100 with value 70 and
peaks at index 101 with value 200. -/
def risingPulseFrame : ℕ → ℕ :=
  fun i => if i = 100 then 70 else if i = 101 then 200 else 0

/-- A frame whose first sample below the web blind-zone threshold `10` is at
index `IGNORE_FIRST_SAMPLES = 8`. -/
def bzDropFrame : ℕ → ℕ := fun i => if i = 8 then 0 else 100

/-- A 3608-byte packet with header `0xAA`, all-zero payload and checksum byte
`9`: its payload XOR is `0 ≠ 9`, so the checksum does not match. -/
def badChecksumPacket : List ℕ := 0xAA :: (List.replicate 3606 0 ++ [9])

/-- A 3608-byte packet with header `0xAA`, all-zero payload and checksum byte
`0`: its payload XOR is `0`, so the checksum matches. -/
def goodChecksumPacket : List ℕ := 0xAA :: List.replicate 3607 0

/-- A short frame whose primary reflection has value `60 ≥ 50` at index 1
(the blind zone ends at index 0 because its noise floor is `0`). -/
def strongEchoFrame : List ℕ := [0, 60]

/-- A short frame whose primary reflection has value `10 < 50`, so the frame
is dropped by the amplitude gate. -/
def weakEchoFrame : List ℕ := [0, 10]

/-- Server state with a 3D GPS snapshot, a smoothed depth of 100 cm, an empty
fusion buffer and no DB write yet. -/
def fixedGpsState : GpsServer.ServerState :=
  ⟨⟨some 44.5, some 15.1, true⟩, some 100, [], 0⟩

/-- Server state whose GPS snapshot lies on the prime meridian (`lon = 0`). -/
def zeroLonState : GpsServer.ServerState :=
  ⟨⟨some 44.5, some 0, true⟩, some 100, [], 0⟩

/-- A buffered sonar record carrying GPS snapshot `(1, 2)`. -/
def bufferedRecord : GpsServer.SonarRecord :=
  ⟨1234, ⟨100, 150, 150 * GpsServer.SAMPLE_RESOLUTION, 0⟩, 32.67, ⟨some 1, some 2⟩⟩

/-- Server state holding one buffered sonar record. -/
def bufferedState : GpsServer.ServerState :=
  ⟨⟨some 1, some 2, true⟩, some 100, [bufferedRecord], 0⟩

/-- A TPV message with a 3D fix at `(44.5, 15.1)`. -/
def tpvFixMsg : GpsServer.GpsdMsg :=
  ⟨GpsServer.MsgClass.TPV, some 3, some 44.5, some 15.1, none, none, none,
    none, none, some 999, none, none⟩

/-- A TPV message with a 3D fix whose longitude is exactly `0`. -/
def tpvZeroLonMsg : GpsServer.GpsdMsg :=
  ⟨GpsServer.MsgClass.TPV, some 3, some 44.5, some 0, none, none, none,
    none, none, some 999, none, none⟩

/-! # Theorems -/

/-! ## Structure of one `processDataPacket` call -/

open GpsServer in
theorem processDataPacket_lastSmoothed (st : ServerState) (raw : List ℕ) (t : ℤ) :
    (processDataPacket st raw t).state.lastSmoothedDistance =
      (applyExponentialSmoothing st.lastSmoothedDistance
        (findPrimaryReflection raw).distance).2 := by
  simp only [processDataPacket]
  split_ifs <;> try rfl
  all_goals (split <;> try rfl)
  all_goals split_ifs <;> rfl

open GpsServer in
theorem processDataPacket_buffer (st : ServerState) (raw : List ℕ) (t : ℤ) :
    (processDataPacket st raw t).state.collectedSonarData =
      (if (findPrimaryReflection raw).value < 50 then st.collectedSonarData
       else st.collectedSonarData ++ [recordOf st raw t]) := by
  simp only [processDataPacket]
  split_ifs <;> try rfl
  all_goals (split <;> try rfl)
  all_goals split_ifs <;> rfl

open GpsServer in
theorem processDataPacket_gate (st : ServerState) (raw : List ℕ) (t : ℤ)
    (h : (findPrimaryReflection raw).value < 50) :
    processDataPacket st raw t =
      ⟨{ st with lastSmoothedDistance :=
          (applyExponentialSmoothing st.lastSmoothedDistance
            (findPrimaryReflection raw).distance).2 }, none, none⟩ := by
  unfold processDataPacket
  rw [if_pos h]

open GpsServer in
theorem processDataPacket_db (st : ServerState) (raw : List ℕ) (t : ℤ) :
    ((processDataPacket st raw t).state.lastDbWriteTimestamp = st.lastDbWriteTimestamp ∧
      (processDataPacket st raw t).dbInsert = none) ∨
    (DB_WRITE_INTERVAL_MS ≤ t - st.lastDbWriteTimestamp ∧
      (processDataPacket st raw t).state.lastDbWriteTimestamp = t ∧
      ∃ lat lon, (getGpsCoordinates st.currentGpsData).lat = some lat ∧
        (getGpsCoordinates st.currentGpsData).lon = some lon ∧ lat ≠ 0 ∧ lon ≠ 0 ∧
        (processDataPacket st raw t).dbInsert =
          some ⟨t, lat, lon, (findPrimaryReflection raw).value,
            (findPrimaryReflection raw).index, (recordOf st raw t).smoothedDistance⟩) := by
  simp only [processDataPacket, List.getLast?_concat, Option.getD_some]
  split_ifs <;> try exact Or.inl ⟨rfl, rfl⟩
  all_goals split
  all_goals try exact Or.inl ⟨rfl, rfl⟩
  all_goals rename_i h1 h2 hlen hpk lat lon heq1 heq2
  all_goals split_ifs with h4
  all_goals try exact Or.inl ⟨rfl, rfl⟩
  all_goals exact Or.inr ⟨by omega, rfl, lat, lon, heq1, heq2,
    fun hc => h4 (Or.inl hc), fun hc => h4 (Or.inr hc), rfl⟩

/-! ## Structure of one GPS-pipe line -/

open GpsServer in
theorem handleGpsLine_zero_latlon (st : ServerState) (msg : GpsdMsg) (wc : ℤ)
    (la lo : ℚ) (hc : msg.cls = MsgClass.TPV) (hla : msg.lat = some la)
    (hlo : msg.lon = some lo) (hz : la = 0 ∨ lo = 0) :
    handleGpsLine st msg wc = (st, [Event.rawCountUpdate], [DbAction.insertGpsRaw msg]) := by
  simp only [handleGpsLine, hc, hla, hlo]
  rw [if_pos trivial]
  rw [if_neg (show ¬(2 ≤ msg.mode.getD 0 ∧ la ≠ 0 ∧ lo ≠ 0) from
    fun h => hz.elim (fun z => h.2.1 z) (fun z => h.2.2 z))]
  simp

open GpsServer in
theorem handleGpsLine_gated (st : ServerState) (msg : GpsdMsg) (wc : ℤ)
    (la lo : ℚ) (hc : msg.cls = MsgClass.TPV) (hla : msg.lat = some la)
    (hlo : msg.lon = some lo) (hm : 2 ≤ msg.mode.getD 0) (h0 : la ≠ 0) (h1 : lo ≠ 0)
    (hne : st.collectedSonarData ≠ []) :
    (handleGpsLine st msg wc).2.1.countP Event.isSonarBatch = 1 ∧
    Event.sonarBatch (st.collectedSonarData.map projRecord) ∈ (handleGpsLine st msg wc).2.1 ∧
    (handleGpsLine st msg wc).1.collectedSonarData = [] := by
  simp only [handleGpsLine, hc, hla, hlo]
  rw [if_pos trivial]
  rw [if_pos (show 2 ≤ msg.mode.getD 0 ∧ la ≠ 0 ∧ lo ≠ 0 from ⟨hm, h0, h1⟩)]
  rw [if_pos (show st.collectedSonarData.length ≠ 0 by
    simpa [List.length_eq_zero] using hne)]
  refine ⟨?_, ?_, rfl⟩
  · simp [List.countP_cons, Event.isSonarBatch]
  · simp


open GpsServer in
theorem runSonar_rows (inputs : List (List ℕ × ℤ)) : ∀ st : ServerState,
    (∀ r ∈ (runSonar st inputs).2,
      st.lastDbWriteTimestamp + DB_WRITE_INTERVAL_MS ≤ r.timestamp) ∧
    List.Chain' (fun r1 r2 => r1.timestamp + DB_WRITE_INTERVAL_MS ≤ r2.timestamp)
      (runSonar st inputs).2 := by
  have hDB : DB_WRITE_INTERVAL_MS = 3000 := rfl
  induction inputs with
  | nil => intro st; simp [runSonar]
  | cons hd tl ih =>
      intro st
      obtain ⟨raw, t⟩ := hd
      simp only [runSonar]
      rcases processDataPacket_db st raw t with ⟨heq, hnone⟩ |
        ⟨hge, heq, lat, lon, e1, e2, n1, n2, hins⟩
      · rw [hnone]
        refine ⟨?_, (ih _).2⟩
        intro r hr
        have hb := (ih ((processDataPacket st raw t).state)).1 r hr
        rw [heq] at hb
        exact hb
      · rw [hins]
        have hrest := ih ((processDataPacket st raw t).state)
        rw [heq] at hrest
        constructor
        · intro r hr
          rcases List.mem_cons.mp hr with hr | hr
          · subst hr; simpa using by omega
          · have := hrest.1 r hr; omega
        · refine List.chain'_cons'.mpr ⟨?_, hrest.2⟩
          intro b hb
          have hmem : b ∈ (runSonar (processDataPacket st raw t).state tl).2 :=
            List.mem_of_mem_head? hb
          have := hrest.1 b hmem
          simpa using by omega

/-- **C3** -/
theorem db_write_throttled :
    (∀ (st : GpsServer.ServerState) (inputs : List (List ℕ × ℤ)),
      List.Chain'
        (fun r1 r2 => r1.timestamp + GpsServer.DB_WRITE_INTERVAL_MS ≤ r2.timestamp)
        (GpsServer.runSonar st inputs).2) ∧
    (∀ (st : GpsServer.ServerState) (raw : List ℕ) (t : ℤ) (row : GpsServer.SonarRow),
      (GpsServer.processDataPacket st raw t).dbInsert = some row →
        GpsServer.DB_WRITE_INTERVAL_MS ≤ t - st.lastDbWriteTimestamp ∧
        (GpsServer.getGpsCoordinates st.currentGpsData).lat ≠ none ∧
        (GpsServer.getGpsCoordinates st.currentGpsData).lon ≠ none) := by
  constructor
  · intro st inputs; exact (runSonar_rows inputs st).2
  · intro st raw t row h
    rcases processDataPacket_db st raw t with ⟨-, hnone⟩ |
      ⟨hge, -, lat, lon, e1, e2, -, -, -⟩
    · rw [hnone] at h; cases h
    · exact ⟨hge, by rw [e1]; simp, by rw [e2]; simp⟩

theorem db_write_throttled_witness :
    (GpsServer.processDataPacket fixedGpsState strongEchoFrame 5000).dbInsert =
      some ⟨5000, 44.5, 15.1, 60, 1, 90.02178⟩ ∧
    (GpsServer.DB_WRITE_INTERVAL_MS ≤ 5000 - fixedGpsState.lastDbWriteTimestamp ∧
      (GpsServer.getGpsCoordinates fixedGpsState.currentGpsData).lat ≠ none ∧
      (GpsServer.getGpsCoordinates fixedGpsState.currentGpsData).lon ≠ none) := by
  have h : (GpsServer.processDataPacket fixedGpsState strongEchoFrame 5000).dbInsert =
      some ⟨5000, 44.5, 15.1, 60, 1, 90.02178⟩ := by
    norm_num [GpsServer.processDataPacket, GpsServer.findPrimaryReflection,
      GpsServer.calculateNoiseFloor, GpsServer.findBlindZoneEnd, GpsServer.findBlindZoneEndGo,
      GpsServer.scanMax, GpsServer.applyExponentialSmoothing, GpsServer.recordOf,
      GpsServer.getGpsCoordinates, GpsServer.EMA_ALPHA, GpsServer.SAMPLE_RESOLUTION,
      GpsServer.NOISE_FLOOR_RANGE, GpsServer.DB_WRITE_INTERVAL_MS, fixedGpsState,
      strongEchoFrame, List.getD]
  exact ⟨h, db_write_throttled.2 fixedGpsState strongEchoFrame 5000 _ h⟩

/-- **C10** -/
theorem smoothing_updated_before_amplitude_gate :
    ∀ (st : GpsServer.ServerState) (raw : List ℕ) (t : ℤ),
      (GpsServer.processDataPacket st raw t).state.lastSmoothedDistance =
        (GpsServer.applyExponentialSmoothing st.lastSmoothedDistance
          (GpsServer.findPrimaryReflection raw).distance).2 ∧
      ((GpsServer.findPrimaryReflection raw).value < 50 →
        (GpsServer.processDataPacket st raw t).state.collectedSonarData =
          st.collectedSonarData ∧
        (GpsServer.processDataPacket st raw t).binaryEmit = none ∧
        (GpsServer.processDataPacket st raw t).dbInsert = none) := by
  intro st raw t
  refine ⟨processDataPacket_lastSmoothed st raw t, fun h => ?_⟩
  rw [processDataPacket_gate st raw t h]
  exact ⟨rfl, rfl, rfl⟩

theorem smoothing_updated_before_amplitude_gate_witness :
    (GpsServer.findPrimaryReflection weakEchoFrame).value < 50 ∧
    (GpsServer.processDataPacket fixedGpsState weakEchoFrame 7).state.lastSmoothedDistance =
      some 90.02178 ∧
    (GpsServer.processDataPacket fixedGpsState weakEchoFrame 7).state.collectedSonarData = [] ∧
    (GpsServer.processDataPacket fixedGpsState weakEchoFrame 7).binaryEmit = none ∧
    (GpsServer.processDataPacket fixedGpsState weakEchoFrame 7).dbInsert = none := by
  have hv : (GpsServer.findPrimaryReflection weakEchoFrame).value < 50 := by
    norm_num [GpsServer.findPrimaryReflection, GpsServer.calculateNoiseFloor,
      GpsServer.findBlindZoneEnd, GpsServer.findBlindZoneEndGo, GpsServer.scanMax,
      GpsServer.NOISE_FLOOR_RANGE, weakEchoFrame, List.getD]
  have h := smoothing_updated_before_amplitude_gate fixedGpsState weakEchoFrame 7
  have hsm : (GpsServer.processDataPacket fixedGpsState weakEchoFrame 7).state.lastSmoothedDistance =
      some 90.02178 := by
    rw [h.1]
    norm_num [GpsServer.findPrimaryReflection, GpsServer.calculateNoiseFloor,
      GpsServer.findBlindZoneEnd, GpsServer.findBlindZoneEndGo, GpsServer.scanMax,
      GpsServer.applyExponentialSmoothing, GpsServer.EMA_ALPHA, GpsServer.SAMPLE_RESOLUTION,
      GpsServer.NOISE_FLOOR_RANGE, fixedGpsState, weakEchoFrame, List.getD]
  exact ⟨hv, hsm, (h.2 hv).1, (h.2 hv).2.1, (h.2 hv).2.2⟩

/-- **C8 counterexample** -/
theorem smoothing_zero_observation_changes_state :
    (GpsServer.applyExponentialSmoothing (some 100) 0).2 = some 90 ∧
    ¬ ((90 : ℚ) = 100) ∧
    (GpsServer.applyExponentialSmoothing none 0).2 = some 0 := by
  refine ⟨?_, by norm_num, rfl⟩
  norm_num [GpsServer.applyExponentialSmoothing, GpsServer.EMA_ALPHA]

/-- **C8 amended** -/
theorem smoothing_unconditional_update :
    (∀ x : ℚ, GpsServer.smoothRun none [x] = some x) ∧
    (∀ (s : ℚ) (k : ℕ),
      GpsServer.smoothRun (some s) (List.replicate k 0) =
        some ((1 - GpsServer.EMA_ALPHA) ^ k * s)) := by
  constructor
  · intro x; rfl
  · intro s k
    induction k generalizing s with
    | zero => simp [GpsServer.smoothRun]
    | succ n ih =>
        rw [List.replicate_succ]
        show GpsServer.smoothRun
          (GpsServer.applyExponentialSmoothing (some s) 0).2 (List.replicate n 0) = _
        have hstep : (GpsServer.applyExponentialSmoothing (some s) 0).2 =
            some ((1 - GpsServer.EMA_ALPHA) * s) := by
          norm_num [GpsServer.applyExponentialSmoothing]
        rw [hstep, ih]
        congr 1
        ring

/-- **C9** -/
theorem zero_latlon_behaves_as_no_fix :
    (∀ (st : GpsServer.ServerState) (msg : GpsServer.GpsdMsg) (wc : ℤ) (la lo : ℚ),
      msg.cls = GpsServer.MsgClass.TPV → msg.lat = some la → msg.lon = some lo →
      2 ≤ msg.mode.getD 0 → (la = 0 ∨ lo = 0) →
      GpsServer.handleGpsLine st msg wc =
        (st, [GpsServer.Event.rawCountUpdate], [GpsServer.DbAction.insertGpsRaw msg])) ∧
    (∀ (st : GpsServer.ServerState) (raw : List ℕ) (t : ℤ),
      ((GpsServer.getGpsCoordinates st.currentGpsData).lat = none ∨
        (GpsServer.getGpsCoordinates st.currentGpsData).lat = some 0 ∨
        (GpsServer.getGpsCoordinates st.currentGpsData).lon = none ∨
        (GpsServer.getGpsCoordinates st.currentGpsData).lon = some 0) →
      (GpsServer.processDataPacket st raw t).dbInsert = none) := by
  constructor
  · intro st msg wc la lo hc hla hlo _ hz
    exact handleGpsLine_zero_latlon st msg wc la lo hc hla hlo hz
  · intro st raw t hz
    rcases processDataPacket_db st raw t with ⟨-, hnone⟩ |
      ⟨-, -, lat, lon, e1, e2, n1, n2, -⟩
    · exact hnone
    · exfalso
      rcases hz with h | h | h | h
      · rw [e1] at h; cases h
      · rw [e1] at h; injection h with h; exact n1 h
      · rw [e2] at h; cases h
      · rw [e2] at h; injection h with h; exact n2 h

theorem zero_latlon_behaves_as_no_fix_witness :
    (GpsServer.handleGpsLine bufferedState tpvZeroLonMsg 1000 =
      (bufferedState, [GpsServer.Event.rawCountUpdate],
        [GpsServer.DbAction.insertGpsRaw tpvZeroLonMsg])) ∧
    (GpsServer.processDataPacket zeroLonState strongEchoFrame 5000).dbInsert = none :=
  ⟨zero_latlon_behaves_as_no_fix.1 bufferedState tpvZeroLonMsg 1000 44.5 0 rfl rfl rfl
      (by decide) (Or.inr rfl),
    zero_latlon_behaves_as_no_fix.2 zeroLonState strongEchoFrame 5000
      (Or.inr (Or.inr (Or.inr rfl)))⟩

/-- **C2** -/
theorem gps_gated_batch_emit :
    (∀ (st : GpsServer.ServerState) (msg : GpsServer.GpsdMsg) (wc : ℤ) (la lo : ℚ),
      msg.cls = GpsServer.MsgClass.TPV → msg.lat = some la → msg.lon = some lo →
      2 ≤ msg.mode.getD 0 → la ≠ 0 → lo ≠ 0 → st.collectedSonarData ≠ [] →
      (GpsServer.handleGpsLine st msg wc).2.1.countP GpsServer.Event.isSonarBatch = 1 ∧
      GpsServer.Event.sonarBatch (st.collectedSonarData.map GpsServer.projRecord) ∈
        (GpsServer.handleGpsLine st msg wc).2.1 ∧
      (GpsServer.handleGpsLine st msg wc).1.collectedSonarData = []) ∧
    (∀ (st : GpsServer.ServerState) (raw : List ℕ) (t : ℤ),
      (GpsServer.processDataPacket st raw t).state.collectedSonarData =
        st.collectedSonarData ∨
      (GpsServer.processDataPacket st raw t).state.collectedSonarData =
        st.collectedSonarData ++ [GpsServer.recordOf st raw t]) := by
  constructor
  · intro st msg wc la lo hc hla hlo hm h0 h1 hne
    exact handleGpsLine_gated st msg wc la lo hc hla hlo hm h0 h1 hne
  · intro st raw t
    have h := processDataPacket_buffer st raw t
    by_cases hv : (GpsServer.findPrimaryReflection raw).value < 50
    · rw [if_pos hv] at h; exact Or.inl h
    · rw [if_neg hv] at h; exact Or.inr h

theorem gps_gated_batch_emit_witness :
    bufferedState.collectedSonarData ≠ [] ∧
    ((GpsServer.handleGpsLine bufferedState tpvFixMsg 1000).2.1.countP
        GpsServer.Event.isSonarBatch = 1 ∧
      GpsServer.Event.sonarBatch (bufferedState.collectedSonarData.map GpsServer.projRecord) ∈
        (GpsServer.handleGpsLine bufferedState tpvFixMsg 1000).2.1 ∧
      (GpsServer.handleGpsLine bufferedState tpvFixMsg 1000).1.collectedSonarData = []) :=
  ⟨List.cons_ne_nil _ _,
    gps_gated_batch_emit.1 bufferedState tpvFixMsg 1000 44.5 15.1 rfl rfl rfl (by decide)
      (by norm_num) (by norm_num) (List.cons_ne_nil _ _)⟩

/-! ## Blind-zone characterizations -/

theorem webBzGo_no_hit (values : ℕ → ℕ) (nf : ℚ) :
    ∀ (fuel i cc : ℕ), (∀ j, i ≤ j → j < i + fuel → ¬((values j : ℚ) < nf)) →
      WebApps.findBlindZoneEndGo values nf fuel i cc = WebApps.MAX_BZ_SEARCH_SAMPLES := by
  intro fuel
  induction fuel with
  | zero => intro i cc _; rfl
  | succ n ih =>
      intro i cc h
      rw [WebApps.findBlindZoneEndGo]
      rw [if_neg (h i (le_refl i) (by omega))]
      exact ih (i + 1) 0 (fun j h1 h2 => h j (by omega) (by omega))

theorem webBzGo_first_hit (values : ℕ → ℕ) (nf : ℚ) :
    ∀ (fuel i cc target : ℕ), i + fuel = WebApps.MAX_BZ_SEARCH_SAMPLES →
      i ≤ target → target < WebApps.MAX_BZ_SEARCH_SAMPLES →
      ((values target : ℚ) < nf) →
      (∀ j, i ≤ j → j < target → ¬((values j : ℚ) < nf)) →
      WebApps.findBlindZoneEndGo values nf fuel i cc = target - WebApps.CONSISTENCY_COUNT := by
  intro fuel
  induction fuel with
  | zero => intro i cc target hfu h1 h2 _ _; omega
  | succ n ih =>
      intro i cc target hfu h1 h2 hhit hbefore
      rw [WebApps.findBlindZoneEndGo]
      rcases eq_or_lt_of_le h1 with heq | hlt
      · subst heq
        rw [if_pos hhit,
          if_pos (show WebApps.CONSISTENCY_COUNT ≤ cc + 1 by
            norm_num [WebApps.CONSISTENCY_COUNT])]
      · rw [if_neg (hbefore i (le_refl i) hlt)]
        exact ih (i + 1) 0 target (by omega) (by omega) h2 hhit
          (fun j ha hb => hbefore j (by omega) hb)

theorem gpsBzGo_no_hit (samples : List ℕ) (th : ℚ) :
    ∀ (fuel i : ℕ), (∀ j, i ≤ j → j < i + fuel → ¬((samples.getD j 0 : ℚ) ≤ th)) →
      GpsServer.findBlindZoneEndGo samples th fuel i = 150 := by
  intro fuel
  induction fuel with
  | zero => intro i _; rfl
  | succ n ih =>
      intro i h
      rw [GpsServer.findBlindZoneEndGo]
      rw [if_neg (h i (le_refl i) (by omega))]
      exact ih (i + 1) (fun j h1 h2 => h j (by omega) (by omega))

theorem gpsBzGo_first_hit (samples : List ℕ) (th : ℚ) :
    ∀ (fuel i target : ℕ), i ≤ target → target < i + fuel →
      ((samples.getD target 0 : ℚ) ≤ th) →
      (∀ j, i ≤ j → j < target → ¬((samples.getD j 0 : ℚ) ≤ th)) →
      GpsServer.findBlindZoneEndGo samples th fuel i = target := by
  intro fuel
  induction fuel with
  | zero => intro i target h1 h2 _ _; omega
  | succ n ih =>
      intro i target h1 h2 hhit hbefore
      rw [GpsServer.findBlindZoneEndGo]
      rcases eq_or_lt_of_le h1 with heq | hlt
      · subst heq
        rw [if_pos hhit]
      · rw [if_neg (hbefore i (le_refl i) hlt)]
        exact ih (i + 1) target (by omega) (by omega) hhit
          (fun j ha hb => hbefore j (by omega) hb)

/-- **C5 amended** -/
theorem findBlindZoneEnd_characterization :
    (∀ (values : ℕ → ℕ) (nf : ℚ) (i : ℕ),
      WebApps.IGNORE_FIRST_SAMPLES ≤ i → i < WebApps.MAX_BZ_SEARCH_SAMPLES →
      ((values i : ℚ) < nf) →
      (∀ j, j < i → WebApps.IGNORE_FIRST_SAMPLES ≤ j → ¬((values j : ℚ) < nf)) →
      WebApps.findBlindZoneEnd values nf = i - 1) ∧
    (∀ (values : ℕ → ℕ) (nf : ℚ),
      (∀ j, j < WebApps.MAX_BZ_SEARCH_SAMPLES → WebApps.IGNORE_FIRST_SAMPLES ≤ j →
        ¬((values j : ℚ) < nf)) →
      WebApps.findBlindZoneEnd values nf = WebApps.MAX_BZ_SEARCH_SAMPLES) ∧
    (∀ (samples : List ℕ) (nf : ℚ) (i : ℕ),
      i < min samples.length 500 →
      ((samples.getD i 0 : ℚ) ≤ nf * 1.2) →
      (∀ j, j < i → ¬((samples.getD j 0 : ℚ) ≤ nf * 1.2)) →
      GpsServer.findBlindZoneEnd samples nf = i) ∧
    (∀ (samples : List ℕ) (nf : ℚ),
      (∀ j, j < min samples.length 500 → ¬((samples.getD j 0 : ℚ) ≤ nf * 1.2)) →
      GpsServer.findBlindZoneEnd samples nf = 150) := by
  have hI : WebApps.IGNORE_FIRST_SAMPLES = 8 := rfl
  have hM : WebApps.MAX_BZ_SEARCH_SAMPLES = 300 := rfl
  have hC : WebApps.CONSISTENCY_COUNT = 1 := rfl
  refine ⟨?_, ?_, ?_, ?_⟩
  · intro values nf i h1 h2 hhit hbefore
    have := webBzGo_first_hit values nf
      (WebApps.MAX_BZ_SEARCH_SAMPLES - WebApps.IGNORE_FIRST_SAMPLES)
      WebApps.IGNORE_FIRST_SAMPLES 0 i (by omega) h1 h2 hhit
      (fun j ha hb => hbefore j hb ha)
    rw [WebApps.findBlindZoneEnd, this, hC]
  · intro values nf h
    exact webBzGo_no_hit values nf
      (WebApps.MAX_BZ_SEARCH_SAMPLES - WebApps.IGNORE_FIRST_SAMPLES)
      WebApps.IGNORE_FIRST_SAMPLES 0 (fun j ha hb => h j (by omega) ha)
  · intro samples nf i h1 hhit hbefore
    exact gpsBzGo_first_hit samples (nf * 1.2) (min samples.length 500) 0 i
      (Nat.zero_le i) (by omega) hhit (fun j _ hb => hbefore j hb)
  · intro samples nf h
    exact gpsBzGo_no_hit samples (nf * 1.2) (min samples.length 500) 0
      (fun j _ hb => h j (by omega))

/-- **C5 counterexample** -/
theorem findBlindZoneEnd_returns_index_above_threshold :
    WebApps.findBlindZoneEnd bzDropFrame 10 = 7 ∧
    ¬ ((bzDropFrame 7 : ℚ) ≤ 10 * 1.3) ∧
    ((bzDropFrame 8 : ℚ) ≤ 10 * 0.9) ∧ (7 : ℕ) ≠ 8 := by
  refine ⟨by decide, ?_, ?_, by decide⟩
  · norm_num [bzDropFrame]
  · norm_num [bzDropFrame]

theorem findBlindZoneEnd_characterization_witness :
    WebApps.findBlindZoneEnd bzDropFrame 10 = 7 ∧
    GpsServer.findBlindZoneEnd [5, 3] 5 = 0 := by
  constructor
  · exact findBlindZoneEnd_characterization.1 bzDropFrame 10 8 (by decide) (by decide)
      (by decide) (by decide)
  · exact findBlindZoneEnd_characterization.2.2.1 [5, 3] 5 0 (by decide)
      (by norm_num [List.getD]) (fun j hj => absurd hj (by omega))

/-! ## Extractor invariants -/

theorem pulseEndGo_ge (values : ℕ → ℕ) (len : ℕ) :
    ∀ (fuel j i0 : ℕ), i0 < len → i0 ≤ j → j + fuel = len →
      i0 ≤ WebApps.pulseEndGo values len fuel j := by
  intro fuel
  induction fuel with
  | zero => intro j i0 h1 h2 h3; rw [WebApps.pulseEndGo]; omega
  | succ n ih =>
      intro j i0 h1 h2 h3
      rw [WebApps.pulseEndGo]
      split
      · exact ih (j + 1) i0 h1 (by omega) (by omega)
      · exact h2

theorem pulseEnd_ge (values : ℕ → ℕ) (len i : ℕ) (h : i < len) :
    i ≤ WebApps.pulseEnd values len i :=
  pulseEndGo_ge values len (len - i) i i h (le_refl i) (by omega)

theorem extractLoop_mem_lb (values : ℕ → ℕ) (len : ℕ) (consistent : List ℤ) :
    ∀ (fuel i : ℕ) (lastEnd : ℤ) (count : ℕ),
      lastEnd ≤ (i : ℤ) + (WebApps.MIN_SIGNAL_SEPARATION : ℤ) →
      ∀ d ∈ WebApps.extractLoop values len consistent fuel i lastEnd count,
        lastEnd + (WebApps.MIN_SIGNAL_SEPARATION : ℤ) ≤ (d.1 : ℤ) ∧ i ≤ d.1 := by
  intro fuel
  induction fuel with
  | zero => intro i lastEnd count _ d hd; cases hd
  | succ n ih =>
      intro i lastEnd count hinv d hd
      rw [WebApps.extractLoop] at hd
      split at hd
      case isTrue hlt =>
        split at hd
        case isTrue hskip =>
          have := ih (i + 1) lastEnd count (by omega) d hd
          omega
        case isFalse hcond =>
          split at hd
          case isTrue hcons =>
            have hpe : i ≤ WebApps.pulseEnd values len i := pulseEnd_ge values len i hlt
            dsimp only at hd
            split at hd
            case isTrue hcnt =>
              rw [List.mem_singleton] at hd
              subst hd
              exact ⟨by omega, le_refl i⟩
            case isFalse hcnt =>
              rw [List.mem_cons] at hd
              rcases hd with hd | hd
              · subst hd
                exact ⟨by omega, le_refl i⟩
              · have := ih (WebApps.pulseEnd values len i + 1)
                  (WebApps.pulseEnd values len i) (count + 1) (by omega) d hd
                omega
          case isFalse hcons =>
            have := ih (i + 1) lastEnd count (by omega) d hd
            omega
      case isFalse hge => cases hd

theorem extractLoop_chain (values : ℕ → ℕ) (len : ℕ) (consistent : List ℤ) :
    ∀ (fuel i : ℕ) (lastEnd : ℤ) (count : ℕ),
      List.Chain'
        (fun d1 d2 => (WebApps.pulseEnd values len d1.1 : ℤ) +
          (WebApps.MIN_SIGNAL_SEPARATION : ℤ) ≤ (d2.1 : ℤ))
        (WebApps.extractLoop values len consistent fuel i lastEnd count) := by
  intro fuel
  induction fuel with
  | zero => intro i lastEnd count; rw [WebApps.extractLoop]; exact List.chain'_nil
  | succ n ih =>
      intro i lastEnd count
      rw [WebApps.extractLoop]
      split
      case isTrue hlt =>
        split
        case isTrue hskip => exact ih (i + 1) lastEnd count
        case isFalse hcond =>
          split
          case isTrue hcons =>
            dsimp only
            split
            case isTrue hcnt => simp
            case isFalse hcnt =>
              refine List.chain'_cons'.mpr ⟨?_, ih _ _ _⟩
              intro b hb
              have hmem : b ∈ WebApps.extractLoop values len consistent n
                  (WebApps.pulseEnd values len i + 1)
                  (WebApps.pulseEnd values len i) (count + 1) :=
                List.mem_of_mem_head? hb
              have := extractLoop_mem_lb values len consistent n
                (WebApps.pulseEnd values len i + 1)
                (WebApps.pulseEnd values len i) (count + 1) (by omega) b hmem
              exact this.1
          case isFalse hcons => exact ih (i + 1) lastEnd count
      case isFalse hge => exact List.chain'_nil

theorem extractLoop_amp (values : ℕ → ℕ) (len : ℕ) (consistent : List ℤ) :
    ∀ (fuel i : ℕ) (lastEnd : ℤ) (count : ℕ),
      ∀ d ∈ WebApps.extractLoop values len consistent fuel i lastEnd count,
        d.2 = values d.1 := by
  intro fuel
  induction fuel with
  | zero => intro i lastEnd count d hd; cases hd
  | succ n ih =>
      intro i lastEnd count d hd
      rw [WebApps.extractLoop] at hd
      split at hd
      case isTrue hlt =>
        split at hd
        case isTrue hskip => exact ih _ _ _ d hd
        case isFalse hcond =>
          split at hd
          case isTrue hcons =>
            dsimp only at hd
            split at hd
            case isTrue hcnt =>
              rw [List.mem_singleton] at hd; subst hd; rfl
            case isFalse hcnt =>
              rw [List.mem_cons] at hd
              rcases hd with hd | hd
              · subst hd; rfl
              · exact ih _ _ _ d hd
          case isFalse hcons => exact ih _ _ _ d hd
      case isFalse hge => cases hd

/-- **C7** -/
theorem detections_separated (values : ℕ → ℕ) (len : ℕ) (consistent : List ℤ) :
    List.Chain'
      (fun d1 d2 => (WebApps.pulseEnd values len d1.1 : ℤ) +
        (WebApps.MIN_SIGNAL_SEPARATION : ℤ) ≤ (d2.1 : ℤ))
      (WebApps.detectedSignals values len consistent) :=
  extractLoop_chain values len consistent len 0 (-1) 0

/-- **C4 amended** -/
theorem extract_amplitude_is_start_sample (values : ℕ → ℕ) (len : ℕ)
    (consistent : List ℤ) (d : ℕ × ℕ)
    (hd : d ∈ WebApps.detectedSignals values len consistent) :
    d.2 = values d.1 :=
  extractLoop_amp values len consistent len 0 (-1) 0 d hd

set_option maxRecDepth 400000 in
/-- **C4 counterexample** -/
theorem extract_amplitude_not_pulse_max :
    WebApps.detectedSignals risingPulseFrame 1800 [(100 : ℤ)] = [(100, 70)] ∧
    WebApps.pulseEnd risingPulseFrame 1800 100 = 102 ∧
    WebApps.pulseMax risingPulseFrame 100 102 = 200 ∧
    (70 : ℕ) ≠ 200 := by
  exact ⟨by decide, by decide, by decide, by decide⟩

set_option maxRecDepth 400000 in
theorem extract_amplitude_is_start_sample_witness :
    (100, 70) ∈ WebApps.detectedSignals risingPulseFrame 1800 [(100 : ℤ)] ∧
    ((100, 70) : ℕ × ℕ).2 = risingPulseFrame 100 :=
  ⟨by decide,
    extract_amplitude_is_start_sample risingPulseFrame 1800 [(100 : ℤ)] (100, 70) (by decide)⟩

set_option maxRecDepth 400000 in
/-- **C6** -/
theorem persistence_gating_scenario :
    (trackerScenario 9).1 = List.replicate 9 [] ∧
    (trackerScenario 10).1 = List.replicate 9 [] ++ [[(700 : ℤ)]] := by
  exact ⟨by decide, by decide⟩

/-! ## Reassembler soundness -/

theorem readSamplesBE_length : ∀ l : List ℕ, (readSamplesBE l).length = l.length / 2
  | [] => by simp [readSamplesBE]
  | [a] => by simp [readSamplesBE]
  | a :: b :: rest => by
      rw [readSamplesBE]
      simp only [List.length_cons]
      rw [readSamplesBE_length rest]
      omega

theorem readSamplesBE_replicate_zero : ∀ n : ℕ,
    readSamplesBE (List.replicate (2 * n) 0) = List.replicate n 0 := by
  intro n
  induction n with
  | zero => rfl
  | succ m ih =>
      have h2 : List.replicate (2 * (m + 1)) (0 : ℕ) =
          0 :: 0 :: List.replicate (2 * m) 0 := by
        rw [show 2 * (m + 1) = (2 * m + 1) + 1 by ring, List.replicate_succ,
          List.replicate_succ]
      rw [h2, readSamplesBE, ih, ← List.replicate_succ]

theorem xorChecksum_replicate_zero (n : ℕ) :
    WebApps.xorChecksum (List.replicate n 0) = 0 := by
  unfold WebApps.xorChecksum
  induction n with
  | zero => rfl
  | succ m ih => simpa [List.replicate_succ] using ih

theorem findHeaderGo_some (buffer : List ℕ) :
    ∀ (fuel i k : ℕ), WebApps.findHeaderGo buffer fuel i = some k →
      i ≤ k ∧ k + WebApps.PACKET_LEN ≤ buffer.length ∧
      buffer.getD k 0 = WebApps.PACKET_HEADER := by
  intro fuel
  induction fuel with
  | zero => intro i k h; cases h
  | succ n ih =>
      intro i k h
      rw [WebApps.findHeaderGo] at h
      split at h
      · rename_i hle
        split at h
        · rename_i hhit
          injection h with h
          subst h
          exact ⟨le_refl i, hle, hhit⟩
        · obtain ⟨ha, hb, hc⟩ := ih (i + 1) k h
          exact ⟨by omega, hb, hc⟩
      · cases h

theorem findHeader_some (buffer : List ℕ) (k : ℕ)
    (h : WebApps.findHeader buffer = some k) :
    k + WebApps.PACKET_LEN ≤ buffer.length ∧
    buffer.getD k 0 = WebApps.PACKET_HEADER := by
  rw [WebApps.findHeader] at h
  obtain ⟨h1, h2, h3⟩ := findHeaderGo_some buffer buffer.length 0 k h
  exact ⟨h2, h3⟩

theorem samplesAt_length (buffer : List ℕ) (k : ℕ)
    (h : k + WebApps.PACKET_LEN ≤ buffer.length) :
    (WebApps.samplesAt buffer k).length = WebApps.NUM_SAMPLES := by
  have hP : WebApps.PACKET_LEN = 3608 := rfl
  have hL : WebApps.PAYLOAD_LEN = 3606 := rfl
  have hN : WebApps.NUM_SAMPLES = 1800 := rfl
  rw [WebApps.samplesAt, readSamplesBE_length]
  simp only [List.length_drop, List.length_take]
  omega

theorem ValidPacketAt_drop (buffer : List ℕ) (n k : ℕ) (v : List ℕ)
    (h : WebApps.ValidPacketAt (buffer.drop n) k v) :
    WebApps.ValidPacketAt buffer (n + k) v := by
  have hP : WebApps.PACKET_LEN = 3608 := rfl
  obtain ⟨h1, h2, h3, h4⟩ := h
  rw [List.length_drop] at h1
  refine ⟨by omega, ?_, ?_, ?_⟩
  · rw [← h2]; simp [List.getD, List.getElem?_drop]
  · rw [WebApps.ChecksumOkAt] at h3 ⊢
    rw [List.drop_drop] at h3
    exact h3
  · rw [WebApps.samplesAt] at h4 ⊢
    rw [List.drop_drop] at h4
    exact h4

theorem extractGo_some :
    ∀ (fuel : ℕ) (buffer v b : List ℕ), WebApps.extractGo fuel buffer = (some v, b) →
      ∃ k, WebApps.ValidPacketAt buffer k v ∧
        b = buffer.drop (k + WebApps.PACKET_LEN) := by
  intro fuel
  induction fuel with
  | zero => intro buffer v b h; exact absurd h (by simp [WebApps.extractGo])
  | succ n ih =>
      intro buffer v b h
      rw [WebApps.extractGo] at h
      split at h
      · exact absurd h (by simp)
      · rename_i k hfind
        dsimp only at h
        split at h
        · obtain ⟨k', hvp, hb⟩ := ih (buffer.drop (k + 1)) v b h
          refine ⟨(k + 1) + k', ValidPacketAt_drop buffer (k + 1) k' v hvp, ?_⟩
          rw [hb, List.drop_drop,
            show k + 1 + (k' + WebApps.PACKET_LEN) = k + 1 + k' + WebApps.PACKET_LEN
              from by omega]
        · rename_i hne
          injection h with h1 h2
          injection h1 with h1
          have hf := findHeader_some buffer k hfind
          exact ⟨k, ⟨hf.1, hf.2, not_not.mp hne, h1.symm⟩, h2.symm⟩

theorem drainGo_valid :
    ∀ (fuel : ℕ) (buffer v : List ℕ), v ∈ (WebApps.drainGo fuel buffer).1 →
      ∃ k, WebApps.ValidPacketAt buffer k v := by
  intro fuel
  induction fuel with
  | zero => intro buffer v h; exact absurd h (by simp [WebApps.drainGo])
  | succ n ih =>
      intro buffer v h
      rw [WebApps.drainGo] at h
      split at h
      · exact absurd h (by simp)
      · rename_i v0 b heq
        rw [WebApps.extractAndProcessPacket] at heq
        dsimp only at h
        rw [List.mem_cons] at h
        rcases h with h | h
        · subst h
          obtain ⟨k, hvp, _⟩ := extractGo_some buffer.length buffer v b heq
          exact ⟨k, hvp⟩
        · obtain ⟨k0, hvp0, hb⟩ := extractGo_some buffer.length buffer v0 b heq
          obtain ⟨k1, hvp1⟩ := ih b v h
          rw [hb] at hvp1
          exact ⟨k0 + WebApps.PACKET_LEN + k1,
            ValidPacketAt_drop buffer (k0 + WebApps.PACKET_LEN) k1 v hvp1⟩

theorem serialFramesGo_length :
    ∀ (fuel : ℕ) (buffer v : List ℕ), v ∈ (GpsServer.serialFramesGo fuel buffer).1 →
      v.length = GpsServer.NUM_SAMPLES := by
  intro fuel
  induction fuel with
  | zero => intro buffer v h; exact absurd h (by simp [GpsServer.serialFramesGo])
  | succ n ih =>
      intro buffer v h
      rw [GpsServer.serialFramesGo] at h
      split at h
      · exact absurd h (by simp)
      · split at h
        · exact absurd h (by simp)
        · rename_i hlen heq0
          dsimp only at h
          rw [List.mem_cons] at h
          rcases h with h | h
          · subst h
            rw [readSamplesBE_length]
            have hP : GpsServer.PACKET_SIZE = 3608 := rfl
            have hM : GpsServer.NUM_METADATA_BYTES = 6 := rfl
            have hN : GpsServer.NUM_SAMPLES = 1800 := rfl
            simp only [List.length_drop, List.length_take]
            omega
          · exact ih _ v h
        · exact ih _ v h

theorem badChecksumPacket_length : badChecksumPacket.length = 3608 := by
  rw [show badChecksumPacket = 0xAA :: (List.replicate 3606 0 ++ [9]) from rfl]
  simp only [List.length_cons, List.length_append, List.length_replicate, List.length_nil]

theorem serialFramesGo_nil (fuel : ℕ) :
    GpsServer.serialFramesGo fuel ([] : List ℕ) = ([], []) := by
  cases fuel with
  | zero => rfl
  | succ m => rfl

theorem serialFrames_badChecksumPacket :
    GpsServer.serialFrames badChecksumPacket = ([List.replicate 1800 0], []) := by
  have hPS : GpsServer.PACKET_SIZE = 3608 := rfl
  have hguard : ¬(badChecksumPacket.length < GpsServer.PACKET_SIZE) := by
    rw [badChecksumPacket_length, hPS]; norm_num
  have hidx : badChecksumPacket.findIdx? (fun b => b == GpsServer.HEADER_BYTE) = some 0 := by
    rw [show badChecksumPacket = 0xAA :: (List.replicate 3606 0 ++ [9]) from rfl,
      List.findIdx?_cons]
    rw [if_pos (show ((0xAA : ℕ) == GpsServer.HEADER_BYTE) = true from rfl)]
  have htk : badChecksumPacket.take GpsServer.PACKET_SIZE = badChecksumPacket :=
    List.take_of_length_le (by rw [badChecksumPacket_length, hPS])
  have hd1 : badChecksumPacket.drop 1 = List.replicate 3606 0 ++ [9] := rfl
  have hpay : (badChecksumPacket.drop 1).take (GpsServer.PACKET_SIZE - 2) =
      List.replicate 3606 0 := by
    rw [hd1, show GpsServer.PACKET_SIZE - 2 = 3606 from by rw [hPS],
      List.take_append_eq_append_take, List.take_replicate]
    simp only [List.length_replicate, Nat.min_self, Nat.sub_self, List.take_zero,
      List.append_nil]
  have hsamples : readSamplesBE ((((badChecksumPacket.take GpsServer.PACKET_SIZE).drop 1).take
      (GpsServer.PACKET_SIZE - 2)).drop GpsServer.NUM_METADATA_BYTES) =
      List.replicate 1800 0 := by
    rw [htk, hpay, show GpsServer.NUM_METADATA_BYTES = 6 from rfl, List.drop_replicate,
      show (3606 : ℕ) - 6 = 3600 from by norm_num,
      show (3600 : ℕ) = 2 * 1800 from by norm_num]
    exact readSamplesBE_replicate_zero 1800
  have hdropPS : badChecksumPacket.drop GpsServer.PACKET_SIZE = [] :=
    List.drop_eq_nil_of_le (by rw [badChecksumPacket_length, hPS])
  have hstep : GpsServer.serialFramesGo (3607 + 1) badChecksumPacket =
      (readSamplesBE ((((badChecksumPacket.take GpsServer.PACKET_SIZE).drop 1).take
        (GpsServer.PACKET_SIZE - 2)).drop GpsServer.NUM_METADATA_BYTES) ::
        (GpsServer.serialFramesGo 3607 (badChecksumPacket.drop GpsServer.PACKET_SIZE)).1,
       (GpsServer.serialFramesGo 3607 (badChecksumPacket.drop GpsServer.PACKET_SIZE)).2) := by
    rw [GpsServer.serialFramesGo, if_neg hguard, hidx]
  rw [hsamples, hdropPS, serialFramesGo_nil] at hstep
  have hwrap : GpsServer.serialFrames badChecksumPacket =
      GpsServer.serialFramesGo 3608 badChecksumPacket := by
    rw [GpsServer.serialFrames, badChecksumPacket_length]
  exact hwrap.trans hstep

theorem goodChecksumPacket_length : goodChecksumPacket.length = 3608 := by
  rw [show goodChecksumPacket = 0xAA :: List.replicate 3607 0 from rfl]
  simp only [List.length_cons, List.length_replicate]

theorem extractGo_step_ok (fuel : ℕ) (buffer : List ℕ) (k : ℕ)
    (hf : WebApps.findHeader buffer = some k)
    (hok : WebApps.ChecksumOkAt buffer k) :
    WebApps.extractGo (fuel + 1) buffer =
      (some (WebApps.samplesAt buffer k), buffer.drop (k + WebApps.PACKET_LEN)) := by
  rw [WebApps.extractGo, hf]
  dsimp only
  rw [if_neg (show ¬(WebApps.xorChecksum (((List.take WebApps.PACKET_LEN
      (List.drop k buffer)).drop 1).take WebApps.PAYLOAD_LEN) ≠
      (List.take WebApps.PACKET_LEN (List.drop k buffer)).getD
        (WebApps.PACKET_LEN - 1) 0) from fun hne => hne hok)]
  rfl

theorem findHeader_goodChecksumPacket :
    WebApps.findHeader goodChecksumPacket = some 0 := by
  have hwrap : WebApps.findHeader goodChecksumPacket =
      WebApps.findHeaderGo goodChecksumPacket 3608 0 := by
    rw [WebApps.findHeader, goodChecksumPacket_length]
  rw [hwrap]
  rw [show WebApps.findHeaderGo goodChecksumPacket 3608 0 =
      (if 0 + WebApps.PACKET_LEN ≤ goodChecksumPacket.length then
        (if goodChecksumPacket.getD 0 0 = WebApps.PACKET_HEADER then some 0
         else WebApps.findHeaderGo goodChecksumPacket 3607 1)
       else none) from rfl]
  rw [if_pos (show 0 + WebApps.PACKET_LEN ≤ goodChecksumPacket.length from by
    rw [goodChecksumPacket_length]; decide)]
  rw [if_pos (show goodChecksumPacket.getD 0 0 = WebApps.PACKET_HEADER from rfl)]

theorem takePL_goodChecksumPacket :
    (goodChecksumPacket.drop 0).take WebApps.PACKET_LEN = goodChecksumPacket := by
  rw [List.drop_zero]
  exact List.take_of_length_le
    (by rw [goodChecksumPacket_length, show WebApps.PACKET_LEN = 3608 from rfl])

theorem payload_goodChecksumPacket :
    (goodChecksumPacket.drop 1).take WebApps.PAYLOAD_LEN = List.replicate 3606 0 := by
  rw [show goodChecksumPacket.drop 1 = List.replicate 3607 0 from rfl,
    List.take_replicate, show WebApps.PAYLOAD_LEN = 3606 from rfl,
    show min 3606 3607 = 3606 from by norm_num]

theorem lastByte_goodChecksumPacket :
    goodChecksumPacket.getD (WebApps.PACKET_LEN - 1) 0 = 0 := by
  rw [show goodChecksumPacket = 0xAA :: List.replicate 3607 0 from rfl,
    show WebApps.PACKET_LEN - 1 = 3607 from rfl,
    show (3607 : ℕ) = 3606 + 1 from rfl, List.getD_cons_succ]
  simp only [List.getD, List.getElem?_replicate]
  norm_num

theorem checksumOk_goodChecksumPacket : WebApps.ChecksumOkAt goodChecksumPacket 0 := by
  unfold WebApps.ChecksumOkAt
  rw [takePL_goodChecksumPacket, payload_goodChecksumPacket, xorChecksum_replicate_zero,
    lastByte_goodChecksumPacket]

theorem samplesAt_goodChecksumPacket :
    WebApps.samplesAt goodChecksumPacket 0 = List.replicate 1800 0 := by
  rw [WebApps.samplesAt, takePL_goodChecksumPacket, payload_goodChecksumPacket]
  rw [List.drop_replicate, show (3606 : ℕ) - 6 = 3600 from by norm_num,
    show (3600 : ℕ) = 2 * 1800 from by norm_num]
  exact readSamplesBE_replicate_zero 1800

theorem extract_goodChecksumPacket :
    WebApps.extractAndProcessPacket goodChecksumPacket =
      (some (List.replicate 1800 0), []) := by
  have hwrap : WebApps.extractAndProcessPacket goodChecksumPacket =
      WebApps.extractGo 3608 goodChecksumPacket := by
    rw [WebApps.extractAndProcessPacket, goodChecksumPacket_length]
  have h := extractGo_step_ok 3607 goodChecksumPacket 0 findHeader_goodChecksumPacket
    checksumOk_goodChecksumPacket
  rw [samplesAt_goodChecksumPacket] at h
  rw [show goodChecksumPacket.drop (0 + WebApps.PACKET_LEN) = [] from
    List.drop_eq_nil_of_le (by rw [goodChecksumPacket_length]; decide)] at h
  exact hwrap.trans h

theorem drainPackets_goodChecksumPacket :
    WebApps.drainPackets goodChecksumPacket = ([List.replicate 1800 0], []) := by
  have hwrap : WebApps.drainPackets goodChecksumPacket =
      WebApps.drainGo 3608 goodChecksumPacket := by
    rw [WebApps.drainPackets, goodChecksumPacket_length]
  have h1 : WebApps.drainGo (3607 + 1) goodChecksumPacket =
      (List.replicate 1800 0 :: (WebApps.drainGo 3607 ([] : List ℕ)).1,
        (WebApps.drainGo 3607 ([] : List ℕ)).2) := by
    rw [WebApps.drainGo, extract_goodChecksumPacket]
  rw [show WebApps.drainGo 3607 ([] : List ℕ) = ([], []) from rfl] at h1
  exact hwrap.trans h1

/-- C1: every frame the web-apps reassembler (`extractAndProcessPacket` /
`drainPackets`) emits comes from a packet in the input buffer whose header,
length and XOR checksum were all validated, and has exactly `NUM_SAMPLES = 1800`
samples; the `gps_server.js` reassembler (`serialBufferHandler`) guarantees only
the sample count — it performs no checksum validation at all. -/
theorem reassembler_emits_only_validated_frames :
    (∀ buffer v : List ℕ, v ∈ (WebApps.drainPackets buffer).1 →
      v.length = WebApps.NUM_SAMPLES ∧ ∃ k, WebApps.ValidPacketAt buffer k v) ∧
    (∀ buffer v : List ℕ, v ∈ (GpsServer.serialFrames buffer).1 →
      v.length = GpsServer.NUM_SAMPLES) := by
  constructor
  · intro buffer v h
    rw [WebApps.drainPackets] at h
    obtain ⟨k, hk⟩ := drainGo_valid buffer.length buffer v h
    obtain ⟨h1, h2, h3, h4⟩ := hk
    exact ⟨by rw [h4]; exact samplesAt_length buffer k h1, k, h1, h2, h3, h4⟩
  · intro buffer v h
    rw [GpsServer.serialFrames] at h
    exact serialFramesGo_length buffer.length buffer v h

theorem reassembler_emits_only_validated_frames_witness :
    (List.replicate 1800 (0 : ℕ)).length = WebApps.NUM_SAMPLES ∧
      ∃ k, WebApps.ValidPacketAt goodChecksumPacket k (List.replicate 1800 0) :=
  reassembler_emits_only_validated_frames.1 goodChecksumPacket
    (List.replicate 1800 0)
    (by rw [drainPackets_goodChecksumPacket]; exact List.mem_singleton.mpr rfl)

/-- C1 counterexample: `badChecksumPacket` is a full 3608-byte packet whose
payload XORs to 0 but whose checksum byte is 9, yet `gps_server.js`'s
`serialBufferHandler` (`serialFrames`) still emits its 1800 samples as a frame:
the gps_server reassembler never checks the checksum. -/
theorem serialBufferHandler_emits_bad_checksum_frame :
    (GpsServer.serialFrames badChecksumPacket).1 = [List.replicate 1800 0] ∧
    WebApps.xorChecksum ((badChecksumPacket.drop 1).take 3606) = 0 ∧
    badChecksumPacket.getD 3607 0 = 9 ∧ (0 : ℕ) ≠ 9 := by
  refine ⟨by rw [serialFrames_badChecksumPacket], ?_, ?_, by norm_num⟩
  · rw [show badChecksumPacket.drop 1 = List.replicate 3606 0 ++ [9] from rfl,
      List.take_append_eq_append_take, List.take_replicate]
    simp only [List.length_replicate, Nat.min_self, Nat.sub_self, List.take_zero,
      List.append_nil]
    exact xorChecksum_replicate_zero 3606
  · rw [show badChecksumPacket = 0xAA :: (List.replicate 3606 0 ++ [9]) from rfl,
      show (3607 : ℕ) = 3606 + 1 from rfl, List.getD_cons_succ]
    rw [List.getD_eq_getElem?_getD,
      List.getElem?_append_right (by rw [List.length_replicate])]
    simp only [List.length_replicate, Nat.sub_self, List.getElem?_cons_zero,
      Option.getD_some]
